import Mathlib

/-!
Shallow embedding of the restaurant-directory request handlers
(`controllers/restaurantController.js`, reproduced in the repository as an
unnamed source file) and of the route table (`routes/restaurantRoutes.js`).

Modelling conventions:
* JavaScript numbers are rationals (`ℚ`); the JS `NaN` produced by coercing a
  non-numeric string is `none` in `JsNum := Option ℚ`.
* A handler run is the list of observable effects it produces, in order:
  calls to the error-forwarding function `next(new AppError(msg, status))`,
  database operations (with the arguments the source passes), and
  `res.status(s).json(body)` responses.
* The database engine and the string-to-number coercion are external
  collaborators; handlers are parameterised over them, so every theorem is
  quantified over all engine behaviours.
-/

/-- Splits a character list at every occurrence of `c`, mirroring the
JavaScript `String.prototype.split` with a single-character separator
(`"".split(c)` gives `[""]`, a trailing separator gives a trailing `""`). -/
def splitOnChar (c : Char) : List Char → List (List Char)
  | [] => [[]]
  | x :: xs =>
    let r := splitOnChar c xs
    if x = c then [] :: r
    else
      match r with
      | [] => [[x]]
      | y :: ys => (x :: y) :: ys

/-- JavaScript `s.split(c)` for a one-character separator `c`. -/
def jsSplit (c : Char) (s : String) : List String :=
  (splitOnChar c s.data).map String.mk

/-- JavaScript `String.prototype.toUpperCase`, the semantics of the
aggregation operator `$toUpper` used by the stats pipelines. -/
def jsToUpper (s : String) : String :=
  String.mk (s.data.map Char.toUpper)

/-- Truthiness test used by `if (!lat || !lng)`: `undefined` (a missing
array-destructuring component, `none` here) and the empty string are the
falsy cases for the split components. -/
def isFalsy : Option String → Bool
  | none => true
  | some s => s = ""

/-- A JavaScript number: `none` models `NaN`. -/
abbrev JsNum := Option ℚ

/-- JS division of a (possibly NaN) number by a nonzero numeric literal:
`NaN / c` is `NaN`. -/
def jsDivC (a : JsNum) (c : ℚ) : JsNum := a.map (fun x => x / c)

/-- JS multiplication of a (possibly NaN) number by a numeric literal:
`NaN * c` is `NaN`. -/
def jsMulC (a : JsNum) (c : ℚ) : JsNum := a.map (fun x => x * c)

/-- Numeric coercion of a possibly-`undefined` string, as triggered by
`lng * 1`: `undefined` coerces to `NaN`, a string coerces through the
collaborator-supplied coercion `toNum` (JS `Number(s)`, `none` = `NaN`). -/
def numOf (toNum : String → JsNum) : Option String → JsNum
  | none => none
  | some s => toNum s

/-- A restaurant document, with the fields the handlers under verification
read: identifier, name, suburb, cuisine tags, rating aggregates.  The
geospatial location is held by the engine model and never inspected by the
handlers themselves. -/
structure Restaurant where
  id : String
  name : String
  suburb : String
  cuisine : List String
  ratingsQuantity : ℚ
  ratingsAverage : ℚ
deriving DecidableEq, Repr

/-- A review document: a reference to its restaurant plus rating and text
(the only fields the populate step selects). -/
structure Review where
  restaurant : String
  rating : ℚ
  review : String
deriving DecidableEq, Repr

/-- The view of a review produced by `.populate({path: 'reviews',
select: 'review rating'})`: only the rating and review-text fields. -/
structure ReviewView where
  rating : ℚ
  review : String
deriving DecidableEq, Repr

/-- The database state visible to the CRUD handlers. -/
structure Db where
  restaurants : List Restaurant
  reviews : List Review
deriving DecidableEq, Repr

/-- An opaque request body (`req.body`), modelled as key-value pairs; the
update handler passes it through to the driver unchanged. -/
abbrev ReqBody := List (String × String)

/-- One output row of the distances aggregation after the `$project` stage
`{name: 1, distance: 1}`: only the name and the computed distance. -/
structure DistEntry where
  name : String
  distance : ℚ
deriving DecidableEq, Repr

/-- One output group of the stats aggregations: the uppercased grouping key
(the `_id` of the `$group` stage) and the three accumulators. -/
structure StatsGroup where
  groupId : String
  numRestaurants : ℕ
  numRatings : ℚ
  avgRating : ℚ
deriving DecidableEq, Repr

/-- A JSON response body, one constructor per response shape the handlers
produce. -/
inductive Body where
  /-- `{status:'success', data: restaurant}` with populated review views. -/
  | restaurant (r : Restaurant) (reviews : List ReviewView)
  /-- `{status:'success', data: restaurant}` without population. -/
  | restaurantPlain (r : Restaurant)
  /-- `{status:'success', count, data: restaurants}`. -/
  | restaurantList (count : ℕ) (rs : List Restaurant)
  /-- `{status:'success', data: distances}`. -/
  | distances (ds : List DistEntry)
  /-- `{status:'success', data: stats}`. -/
  | stats (gs : List StatsGroup)
deriving DecidableEq, Repr

/-- An observable effect of a handler run. -/
inductive Eff where
  /-- `next(new AppError(msg, status))`. -/
  | nextErr (status : ℕ) (msg : String)
  /-- `Restaurant.findById(id)`. -/
  | dbFindById (id : String)
  /-- `Restaurant.findByIdAndUpdate(id, body, {new, runValidators})`. -/
  | dbFindByIdAndUpdate (id : String) (body : ReqBody) (newDoc runValidators : Bool)
  /-- `restaurant.remove()`. -/
  | dbRemove (id : String)
  /-- `Restaurant.find({location: {$geoWithin: {$centerSphere: [center, radius]}}})`;
  the center list carries the raw (uncoerced, possibly undefined) split
  components in the order the source supplies them. -/
  | dbGeoWithin (center : List (Option String)) (radius : JsNum)
  /-- The `$geoNear` stage: coordinates in the order supplied, the
  `distanceField` name, and the `distanceMultiplier`. -/
  | dbGeoNear (coordinates : List JsNum) (distanceField : String) (multiplier : ℚ)
  /-- `res.status(status).json(body)`. -/
  | respond (status : ℕ) (body : Body)
deriving DecidableEq, Repr

/-- The 404 message `A restaurant with the id of '<id>' is not found.`. -/
def notFoundMsg (id : String) : String :=
  "A restaurant with the id of \x27" ++ id ++ "\x27 is not found."

/-- `Restaurant.findById(id)`: the first document whose id matches. -/
def findById (db : Db) (id : String) : Option Restaurant :=
  db.restaurants.find? (fun r => r.id = id)

/-- The populate step of the get-one handler: the reviews referencing the
requested restaurant, restricted to the selected `review rating` fields. -/
def selectReviews (db : Db) (id : String) : List ReviewView :=
  (db.reviews.filter (fun v => v.restaurant = id)).map
    (fun v => { rating := v.rating, review := v.review })

/-- `exports.getRestaurant`: fetch by id with populated reviews; 404 via
`return next(...)` when absent, otherwise 200 with the document. -/
def getRestaurant (db : Db) (id : String) : List Eff :=
  match findById db id with
  | none => [Eff.nextErr 404 (notFoundMsg id)]
  | some r => [Eff.respond 200 (Body.restaurant r (selectReviews db id))]

/-- `exports.updateRestaurant`: one `findByIdAndUpdate` call with options
`{new: true, runValidators: true}`; the driver oracle returns the post-update
document (`new: true`) or `none` when the id does not resolve. -/
def updateRestaurant (updOracle : String → ReqBody → Option Restaurant)
    (id : String) (body : ReqBody) : List Eff :=
  Eff.dbFindByIdAndUpdate id body true true ::
    match updOracle id body with
    | none => [Eff.nextErr 404 (notFoundMsg id)]
    | some r => [Eff.respond 200 (Body.restaurantPlain r)]

/-- `exports.deleteRestaurant`: fetch first, 404 via `return next(...)` when
absent; otherwise remove the fetched document and answer 200 with it. -/
def deleteRestaurant (db : Db) (id : String) : List Eff :=
  Eff.dbFindById id ::
    match findById db id with
    | none => [Eff.nextErr 404 (notFoundMsg id)]
    | some r => [Eff.dbRemove r.id, Eff.respond 200 (Body.restaurantPlain r)]

/-- The components of `const [lat, lng] = latlng.split(',')`; a missing
component is `none` (JS `undefined`). -/
structure LatLngParts where
  lat : Option String
  lng : Option String
deriving DecidableEq, Repr

/-- Destructures `latlng.split(',')` into its first two components. -/
def parseLatLng (latlng : String) : LatLngParts :=
  let parts := jsSplit ',' latlng
  { lat := parts[0]?, lng := parts[1]? }

/-- The 400 message of the latitude/longitude check. -/
def latLngErrMsg : String := "Please provide latitude and longitude of a point"

/-- The 400 message of the unit check. -/
def unitErrMsg : String := "Please provide unit in km(kilometres) or mi(miles)"

/-- The two validation checks shared by both geo handlers.  Each failed
check calls `next(new AppError(..., 400))` WITHOUT a `return`, so the
effects accumulate and the handler body continues afterwards. -/
def geoErrors (p : LatLngParts) (unit : String) : List Eff :=
  (if isFalsy p.lat || isFalsy p.lng then [Eff.nextErr 400 latLngErrMsg] else []) ++
    (if unit ≠ "km" ∧ unit ≠ "mi" then [Eff.nextErr 400 unitErrMsg] else [])

/-- `const radius = (unit === 'km') ? distance / 6378.16 : distance / 3963.2`:
the raw `distance` route segment is coerced to a number by the division. -/
def radiusOf (toNum : String → JsNum) (distance unit : String) : JsNum :=
  if unit = "km" then jsDivC (toNum distance) 6378.16
  else jsDivC (toNum distance) 3963.2

/-- The route parameters of `GET /within/:distance/:unit/near/:latlng`. -/
structure WithinReq where
  distance : String
  unit : String
  latlng : String
deriving DecidableEq, Repr

/-- `exports.getRestaurantsWithin`.  The engine collaborator receives the
`$centerSphere` center (raw split components, longitude first) and the
radius, and yields the matching documents. -/
def getRestaurantsWithin (engine : List (Option String) → JsNum → List Restaurant)
    (toNum : String → JsNum) (req : WithinReq) : List Eff :=
  let p := parseLatLng req.latlng
  let radius := radiusOf toNum req.distance req.unit
  let restaurants := engine [p.lng, p.lat] radius
  geoErrors p req.unit ++
    [Eff.dbGeoWithin [p.lng, p.lat] radius,
     Eff.respond 200 (Body.restaurantList restaurants.length restaurants)]

/-- The route parameters of `GET /distances-from/:latlng/unit/:unit`. -/
structure DistancesReq where
  latlng : String
  unit : String
deriving DecidableEq, Repr

/-- `distanceMultiplier: (unit === 'km') ? 0.001 : 0.000621371`. -/
def distanceMultiplier (unit : String) : ℚ :=
  if unit = "km" then 0.001 else 0.000621371

/-- The `near` coordinates `[lng * 1, lat * 1]` of the `$geoNear` stage:
the split components coerced to numbers, longitude first. -/
def nearCoords (toNum : String → JsNum) (latlng : String) : List JsNum :=
  let p := parseLatLng latlng
  [jsMulC (numOf toNum p.lng) 1, jsMulC (numOf toNum p.lat) 1]

/-- The rest of the distances pipeline applied to the engine output: the
`distanceMultiplier` scales each engine-returned (meter) distance, and the
`$project {name: 1, distance: 1}` stage keeps name and computed distance. -/
def distancesPipeline (raw : List (Restaurant × ℚ)) (mult : ℚ) : List DistEntry :=
  raw.map (fun rd => { name := rd.1.name, distance := rd.2 * mult })

/-- `exports.getDistances`.  The engine collaborator models `$geoNear`
evaluation: given the near coordinates it yields the documents annotated
with their raw distance in meters (sorted nearest first, which is stated as
a hypothesis where a theorem needs it). -/
def getDistances (engine : List JsNum → List (Restaurant × ℚ))
    (toNum : String → JsNum) (req : DistancesReq) : List Eff :=
  let p := parseLatLng req.latlng
  let coords := nearCoords toNum req.latlng
  let mult := distanceMultiplier req.unit
  let ds := distancesPipeline (engine coords) mult
  geoErrors p req.unit ++
    [Eff.dbGeoNear coords "distance" mult,
     Eff.respond 200 (Body.distances ds)]

/-- The `$group` output for one key `k`: the documents whose key equals `k`,
counted (`$sum: 1`), their quantities summed (`$sum`), and their ratings
averaged (`$avg` = sum divided by group size). -/
def mkStatsGroup {α : Type} (key : α → String) (qty avg : α → ℚ)
    (docs : List α) (k : String) : StatsGroup :=
  let members := docs.filter (fun d => key d = k)
  { groupId := k
    numRestaurants := members.length
    numRatings := (members.map qty).sum
    avgRating := (members.map avg).sum / (members.length : ℚ) }

/-- The `$group` stage: one `StatsGroup` per distinct key value, keys in
order of first appearance. -/
def groupBy {α : Type} (key : α → String) (qty avg : α → ℚ)
    (docs : List α) : List StatsGroup :=
  ((docs.map key).dedup).map (mkStatsGroup key qty avg docs)

/-- The `$sort {numRestaurants: -1, numRatings: -1, avgRating: -1}` key
order: `a` may precede `b` when `a` is at least as large as `b` descending
by restaurant count, then by rating count, then by average rating. -/
def descStats (a b : StatsGroup) : Prop :=
  b.numRestaurants < a.numRestaurants ∨
    (b.numRestaurants = a.numRestaurants ∧
      (b.numRatings < a.numRatings ∨
        (b.numRatings = a.numRatings ∧ b.avgRating ≤ a.avgRating)))

instance (a b : StatsGroup) : Decidable (descStats a b) := by
  unfold descStats
  infer_instance

/-- The `$sort` comparison as a Boolean comparator. -/
def statLE (a b : StatsGroup) : Bool :=
  decide (descStats a b)

/-- The `$sort` stage of both stats pipelines. -/
def sortStats (gs : List StatsGroup) : List StatsGroup :=
  gs.mergeSort statLE

/-- The `$unwind: '$cuisine'` stage: one row per cuisine tag, each row
keeping its originating document. -/
def unwindCuisine (docs : List Restaurant) : List (Restaurant × String) :=
  docs.flatMap (fun r => r.cuisine.map (fun c => (r, c)))

/-- The suburb-stats pipeline: group by `$toUpper: '$suburb'`, then sort. -/
def suburbStats (docs : List Restaurant) : List StatsGroup :=
  sortStats (groupBy (fun r => jsToUpper r.suburb)
    Restaurant.ratingsQuantity Restaurant.ratingsAverage docs)

/-- The cuisine-stats pipeline: unwind the cuisine tags, group by
`$toUpper: '$cuisine'`, then sort. -/
def cuisineStats (docs : List Restaurant) : List StatsGroup :=
  sortStats (groupBy (fun rc => jsToUpper rc.2)
    (fun rc => rc.1.ratingsQuantity) (fun rc => rc.1.ratingsAverage)
    (unwindCuisine docs))

/-- `exports.getStatsBySuburb`. -/
def getStatsBySuburb (docs : List Restaurant) : List Eff :=
  [Eff.respond 200 (Body.stats (suburbStats docs))]

/-- `exports.getStatsByCuisine`. -/
def getStatsByCuisine (docs : List Restaurant) : List Eff :=
  [Eff.respond 200 (Body.stats (cuisineStats docs))]

/-- An HTTP method of the route table. -/
inductive Method where
  | GET | POST | PATCH | DELETE
deriving DecidableEq, Repr

/-- The handlers and sub-routers the controller module exports.  The two
stats handlers are listed because the controller defines (and documents
routes for) them, whether or not the router binds them. -/
inductive HandlerId where
  | getAllRestaurants
  | getRestaurant
  | createRestaurant
  | updateRestaurant
  | deleteRestaurant
  | getRestaurantsWithin
  | getDistances
  | getStatsBySuburb
  | getStatsByCuisine
  | reviewRouter
deriving DecidableEq, Repr

/-- A segment of an express route pattern: a literal or a `:name` wildcard. -/
inductive Seg where
  | lit (s : String)
  | param (name : String)
deriving DecidableEq, Repr

/-- A registration in the route table: the method (`none` for `router.use`,
which matches every method), the pattern, whether only a path whose lead
matches is required (`router.use`), and the handler. -/
structure Route where
  method : Option Method
  pattern : List Seg
  leadOnly : Bool
  handler : HandlerId
deriving DecidableEq, Repr

/-- The route table of `routes/restaurantRoutes.js`, in registration order:
the nested review re-route, the two geo routes, then the `/` and `/:id`
route groups.  No stats route is registered anywhere in the file. -/
def routes : List Route :=
  [ { method := none
      pattern := [Seg.param "restaurantId", Seg.lit "reviews"]
      leadOnly := true, handler := HandlerId.reviewRouter }
  , { method := some Method.GET
      pattern := [Seg.lit "within", Seg.param "distance", Seg.param "unit",
                  Seg.lit "near", Seg.param "latlng"]
      leadOnly := false, handler := HandlerId.getRestaurantsWithin }
  , { method := some Method.GET
      pattern := [Seg.lit "distances-from", Seg.param "latlng", Seg.lit "unit",
                  Seg.param "unit"]
      leadOnly := false, handler := HandlerId.getDistances }
  , { method := some Method.GET, pattern := []
      leadOnly := false, handler := HandlerId.getAllRestaurants }
  , { method := some Method.POST, pattern := []
      leadOnly := false, handler := HandlerId.createRestaurant }
  , { method := some Method.GET, pattern := [Seg.param "id"]
      leadOnly := false, handler := HandlerId.getRestaurant }
  , { method := some Method.PATCH, pattern := [Seg.param "id"]
      leadOnly := false, handler := HandlerId.updateRestaurant }
  , { method := some Method.DELETE, pattern := [Seg.param "id"]
      leadOnly := false, handler := HandlerId.deleteRestaurant } ]

/-- Whether a pattern segment accepts a path segment. -/
def segAccepts : Seg → String → Bool
  | Seg.lit s, seg => s = seg
  | Seg.param _, _ => true

/-- Exact express matching: every pattern segment consumes one path segment
and nothing is left over. -/
def segsMatch : List Seg → List String → Bool
  | [], [] => true
  | p :: ps, s :: ss => segAccepts p s && segsMatch ps ss
  | _, _ => false

/-- `router.use` matching: the pattern consumes a lead of the path. -/
def leadSegsMatch : List Seg → List String → Bool
  | [], _ => true
  | p :: ps, s :: ss => segAccepts p s && leadSegsMatch ps ss
  | _ :: _, [] => false

/-- The non-empty segments of a request path below `/api/restaurants`. -/
def pathSegs (p : String) : List String :=
  (jsSplit '/' p).filter (fun s => s ≠ "")

/-- Whether one registration matches a method and path. -/
def routeAccepts (m : Method) (p : String) (r : Route) : Bool :=
  (match r.method with
   | none => true
   | some m2 => m2 = m) &&
    (if r.leadOnly then leadSegsMatch r.pattern (pathSegs p)
     else segsMatch r.pattern (pathSegs p))

/-- Express dispatch: the handler of the first matching registration. -/
def matchRoute (m : Method) (p : String) : Option HandlerId :=
  (routes.find? (routeAccepts m p)).map Route.handler

/-- Kilometres per mile, the conversion factor named by the spec. -/
def kmPerMi : ℚ := 1.609344

/-- `a` approximates `b` within relative tolerance `tol`. -/
def approxRel (tol a b : ℚ) : Prop := |a - b| ≤ tol * |b|

/-- Lat/lng or unit validation fails for these raw parameters: a split
component is missing or empty, or the unit is neither `km` nor `mi`. -/
def badGeoParams (latlng unit : String) : Prop :=
  isFalsy (parseLatLng latlng).lat = true ∨
    isFalsy (parseLatLng latlng).lng = true ∨
    (unit ≠ "km" ∧ unit ≠ "mi")

instance (latlng unit : String) : Decidable (badGeoParams latlng unit) := by
  unfold badGeoParams
  infer_instance

/-- A sample restaurant document used by concrete instantiations. -/
def sampleRest : Restaurant :=
  { id := "r1", name := "Alpha", suburb := "Bondi", cuisine := ["Cafe"]
    ratingsQuantity := 3, ratingsAverage := 4 }

/-- A sample review of `sampleRest`. -/
def sampleReview : Review :=
  { restaurant := "r1", rating := 5, review := "Great" }

/-- A sample database with one restaurant and one review. -/
def sampleDb : Db :=
  { restaurants := [sampleRest], reviews := [sampleReview] }

/-- The empty database. -/
def emptyDb : Db :=
  { restaurants := [], reviews := [] }

/-- A geoNear engine model answering one document 1000 meters away,
whatever the query point. -/
def cexEngine : List JsNum → List (Restaurant × ℚ) :=
  fun _ => [(sampleRest, 1000)]

/-- A failed lat/lng or unit check contributes a 400 error to the shared
validation effects. -/
lemma geoErrors_mem {p : LatLngParts} {unit : String}
    (h : isFalsy p.lat = true ∨ isFalsy p.lng = true ∨ (unit ≠ "km" ∧ unit ≠ "mi")) :
    ∃ m, Eff.nextErr 400 m ∈ geoErrors p unit := by
  unfold geoErrors
  rcases h with h | h | h
  · exact ⟨latLngErrMsg, by simp [h]⟩
  · exact ⟨latLngErrMsg, by simp [h]⟩
  · exact ⟨unitErrMsg, by simp [h]⟩

/-- The within handler always issues its geospatial query. -/
lemma within_mem_query (engine : List (Option String) → JsNum → List Restaurant)
    (toNum : String → JsNum) (req : WithinReq) :
    ∃ c r, Eff.dbGeoWithin c r ∈ getRestaurantsWithin engine toNum req :=
  ⟨[(parseLatLng req.latlng).lng, (parseLatLng req.latlng).lat],
   radiusOf toNum req.distance req.unit, by simp [getRestaurantsWithin]⟩

/-- The within handler always issues its 200 response. -/
lemma within_mem_respond (engine : List (Option String) → JsNum → List Restaurant)
    (toNum : String → JsNum) (req : WithinReq) :
    ∃ b, Eff.respond 200 b ∈ getRestaurantsWithin engine toNum req :=
  ⟨Body.restaurantList
      (engine [(parseLatLng req.latlng).lng, (parseLatLng req.latlng).lat]
        (radiusOf toNum req.distance req.unit)).length
      (engine [(parseLatLng req.latlng).lng, (parseLatLng req.latlng).lat]
        (radiusOf toNum req.distance req.unit)),
   by simp [getRestaurantsWithin]⟩

/-- The distances handler always issues its `$geoNear` aggregation. -/
lemma distances_mem_query (engine : List JsNum → List (Restaurant × ℚ))
    (toNum : String → JsNum) (req : DistancesReq) :
    ∃ c f mu, Eff.dbGeoNear c f mu ∈ getDistances engine toNum req :=
  ⟨nearCoords toNum req.latlng, "distance", distanceMultiplier req.unit,
   by simp [getDistances]⟩

/-- The distances handler always issues its 200 response. -/
lemma distances_mem_respond (engine : List JsNum → List (Restaurant × ℚ))
    (toNum : String → JsNum) (req : DistancesReq) :
    ∃ b, Eff.respond 200 b ∈ getDistances engine toNum req :=
  ⟨Body.distances
      (distancesPipeline (engine (nearCoords toNum req.latlng)) (distanceMultiplier req.unit)),
   by simp [getDistances]⟩

/-- C1: for every radius-search or distances request with a missing lat/lng
component or a unit outside {km, mi}, the handler forwards a 400 error to
`next` yet does not halt: the geospatial database query effect and the 200
response effect are still produced. -/
theorem geoValidationC1
    (engW : List (Option String) → JsNum → List Restaurant)
    (engD : List JsNum → List (Restaurant × ℚ))
    (toNum : String → JsNum) (reqW : WithinReq) (reqD : DistancesReq) :
    (badGeoParams reqW.latlng reqW.unit →
      (∃ m, Eff.nextErr 400 m ∈ getRestaurantsWithin engW toNum reqW) ∧
      (∃ c r, Eff.dbGeoWithin c r ∈ getRestaurantsWithin engW toNum reqW) ∧
      (∃ b, Eff.respond 200 b ∈ getRestaurantsWithin engW toNum reqW)) ∧
    (badGeoParams reqD.latlng reqD.unit →
      (∃ m, Eff.nextErr 400 m ∈ getDistances engD toNum reqD) ∧
      (∃ c f mu, Eff.dbGeoNear c f mu ∈ getDistances engD toNum reqD) ∧
      (∃ b, Eff.respond 200 b ∈ getDistances engD toNum reqD)) := by
  constructor
  · intro h
    refine ⟨?_, within_mem_query engW toNum reqW, within_mem_respond engW toNum reqW⟩
    rcases geoErrors_mem h with ⟨m, hm⟩
    exact ⟨m, by simp [getRestaurantsWithin, hm]⟩
  · intro h
    refine ⟨?_, distances_mem_query engD toNum reqD, distances_mem_respond engD toNum reqD⟩
    rcases geoErrors_mem h with ⟨m, hm⟩
    exact ⟨m, by simp [getDistances, hm]⟩

/-- Witness for C1 at concrete invalid requests (unit `m`, unit `ft`). -/
theorem geoValidationC1_witness :
    ((∃ m, Eff.nextErr 400 m ∈
        getRestaurantsWithin (fun _ _ => []) (fun _ => none) ⟨"10", "m", "1,2"⟩) ∧
      (∃ c r, Eff.dbGeoWithin c r ∈
        getRestaurantsWithin (fun _ _ => []) (fun _ => none) ⟨"10", "m", "1,2"⟩) ∧
      (∃ b, Eff.respond 200 b ∈
        getRestaurantsWithin (fun _ _ => []) (fun _ => none) ⟨"10", "m", "1,2"⟩)) ∧
    ((∃ m, Eff.nextErr 400 m ∈
        getDistances (fun _ => []) (fun _ => none) ⟨"1,2", "ft"⟩) ∧
      (∃ c f mu, Eff.dbGeoNear c f mu ∈
        getDistances (fun _ => []) (fun _ => none) ⟨"1,2", "ft"⟩) ∧
      (∃ b, Eff.respond 200 b ∈
        getDistances (fun _ => []) (fun _ => none) ⟨"1,2", "ft"⟩)) :=
  ⟨(geoValidationC1 (fun _ _ => []) (fun _ => [])
      (fun _ => none) ⟨"10", "m", "1,2"⟩ ⟨"1,2", "ft"⟩).1 (by decide),
   (geoValidationC1 (fun _ _ => []) (fun _ => [])
      (fun _ => none) ⟨"10", "m", "1,2"⟩ ⟨"1,2", "ft"⟩).2 (by decide)⟩

/-- C4: in the within handler the radius is `distance / 6378.16` for `km`
and `distance / 3963.2` for `mi`, and the `$centerSphere` query receives
the coordinate pair longitude first, then latitude. -/
theorem withinC4 (engine : List (Option String) → JsNum → List Restaurant)
    (toNum : String → JsNum) (req : WithinReq) :
    (req.unit = "km" →
      radiusOf toNum req.distance req.unit = jsDivC (toNum req.distance) 6378.16) ∧
    (req.unit = "mi" →
      radiusOf toNum req.distance req.unit = jsDivC (toNum req.distance) 3963.2) ∧
    Eff.dbGeoWithin [(parseLatLng req.latlng).lng, (parseLatLng req.latlng).lat]
      (radiusOf toNum req.distance req.unit) ∈ getRestaurantsWithin engine toNum req := by
  refine ⟨fun h => by simp [radiusOf, h], fun h => by simp [radiusOf, h], ?_⟩
  simp [getRestaurantsWithin]

/-- Witness for C4 at concrete `km` and `mi` requests. -/
theorem withinC4_witness :
    radiusOf (fun _ => none) "10" "km" = jsDivC none 6378.16 ∧
    radiusOf (fun _ => none) "10" "mi" = jsDivC none 3963.2 :=
  ⟨(withinC4 (fun _ _ => []) (fun _ => none) ⟨"10", "km", "1,2"⟩).1 rfl,
   (withinC4 (fun _ _ => []) (fun _ => none) ⟨"10", "mi", "1,2"⟩).2.1 rfl⟩

/-- C10: a within request whose unit is neither `km` nor `mi` falls into
the miles branch of the conversion conditional (`distance / 3963.2`), and
the geospatial query with that radius is still executed, alongside the 400
error and the 200 response. -/
theorem withinC10 (engine : List (Option String) → JsNum → List Restaurant)
    (toNum : String → JsNum) (req : WithinReq)
    (hkm : req.unit ≠ "km") (hmi : req.unit ≠ "mi") :
    radiusOf toNum req.distance req.unit = jsDivC (toNum req.distance) 3963.2 ∧
    Eff.dbGeoWithin [(parseLatLng req.latlng).lng, (parseLatLng req.latlng).lat]
      (jsDivC (toNum req.distance) 3963.2) ∈ getRestaurantsWithin engine toNum req ∧
    (∃ m, Eff.nextErr 400 m ∈ getRestaurantsWithin engine toNum req) ∧
    (∃ b, Eff.respond 200 b ∈ getRestaurantsWithin engine toNum req) := by
  have hr : radiusOf toNum req.distance req.unit = jsDivC (toNum req.distance) 3963.2 := by
    simp [radiusOf, hkm]
  refine ⟨hr, ?_, ?_, ?_⟩
  · have := (withinC4 engine toNum req).2.2
    rwa [hr] at this
  · rcases geoErrors_mem (p := parseLatLng req.latlng) (Or.inr (Or.inr ⟨hkm, hmi⟩)) with ⟨m, hm⟩
    exact ⟨m, by simp [getRestaurantsWithin, hm]⟩
  · exact within_mem_respond engine toNum req

/-- Witness for C10 at a concrete request with unit `m`. -/
theorem withinC10_witness :
    radiusOf (fun _ => none) "10" "m" = jsDivC none 3963.2 ∧
    Eff.dbGeoWithin [(parseLatLng "1,2").lng, (parseLatLng "1,2").lat]
      (jsDivC none 3963.2) ∈
      getRestaurantsWithin (fun _ _ => []) (fun _ => none) ⟨"10", "m", "1,2"⟩ ∧
    (∃ m, Eff.nextErr 400 m ∈
      getRestaurantsWithin (fun _ _ => []) (fun _ => none) ⟨"10", "m", "1,2"⟩) ∧
    (∃ b, Eff.respond 200 b ∈
      getRestaurantsWithin (fun _ _ => []) (fun _ => none) ⟨"10", "m", "1,2"⟩) :=
  withinC10 (fun _ _ => []) (fun _ => none) ⟨"10", "m", "1,2"⟩ (by decide) (by decide)

/-- C7: the get-one handler forwards a 404 (and returns no success payload)
when no restaurant matches the identifier, and otherwise answers 200 with
the document together with its populated reviews restricted to the rating
and review-text fields. -/
theorem getOneC7 (db : Db) (id : String) :
    (findById db id = none →
      getRestaurant db id = [Eff.nextErr 404 (notFoundMsg id)] ∧
      ∀ s b, Eff.respond s b ∉ getRestaurant db id) ∧
    (∀ r, findById db id = some r →
      getRestaurant db id =
        [Eff.respond 200 (Body.restaurant r (selectReviews db id))] ∧
      selectReviews db id = (db.reviews.filter (fun v => v.restaurant = id)).map
        (fun v => { rating := v.rating, review := v.review })) := by
  constructor
  · intro h
    refine ⟨by simp [getRestaurant, h], ?_⟩
    intro s b
    simp [getRestaurant, h]
  · intro r h
    exact ⟨by simp [getRestaurant, h], rfl⟩

/-- Witness for C7: a 404 on the empty database, a populated 200 on the
sample database. -/
theorem getOneC7_witness :
    getRestaurant emptyDb "nope" = [Eff.nextErr 404 (notFoundMsg "nope")] ∧
    getRestaurant sampleDb "r1" =
      [Eff.respond 200 (Body.restaurant sampleRest (selectReviews sampleDb "r1"))] :=
  ⟨((getOneC7 emptyDb "nope").1 rfl).1,
   ((getOneC7 sampleDb "r1").2 sampleRest rfl).1⟩

/-- C8: the update handler performs exactly one database operation, a
find-and-update with `{new: true, runValidators: true}` (post-update
document returned, schema validators re-run); it forwards 404 when the id
does not resolve and otherwise answers 200 with the updated document. -/
theorem updateC8 (updOracle : String → ReqBody → Option Restaurant)
    (id : String) (body : ReqBody) :
    (updOracle id body = none →
      updateRestaurant updOracle id body =
        [Eff.dbFindByIdAndUpdate id body true true,
         Eff.nextErr 404 (notFoundMsg id)]) ∧
    (∀ r, updOracle id body = some r →
      updateRestaurant updOracle id body =
        [Eff.dbFindByIdAndUpdate id body true true,
         Eff.respond 200 (Body.restaurantPlain r)]) := by
  constructor
  · intro h
    simp [updateRestaurant, h]
  · intro r h
    simp [updateRestaurant, h]

/-- Witness for C8: a missing id and a resolving id. -/
theorem updateC8_witness :
    updateRestaurant (fun _ _ => none) "r9" [] =
      [Eff.dbFindByIdAndUpdate "r9" [] true true,
       Eff.nextErr 404 (notFoundMsg "r9")] ∧
    updateRestaurant (fun _ _ => some sampleRest) "r1" [("name", "Beta")] =
      [Eff.dbFindByIdAndUpdate "r1" [("name", "Beta")] true true,
       Eff.respond 200 (Body.restaurantPlain sampleRest)] :=
  ⟨(updateC8 (fun _ _ => none) "r9" []).1 rfl,
   (updateC8 (fun _ _ => some sampleRest) "r1" [("name", "Beta")]).2 sampleRest rfl⟩

/-- C9: the delete handler fetches first; when nothing is found it forwards
a 404 and performs no remove, and otherwise it removes the fetched document
and answers 200 with that document as the payload. -/
theorem deleteC9 (db : Db) (id : String) :
    (findById db id = none →
      deleteRestaurant db id = [Eff.dbFindById id, Eff.nextErr 404 (notFoundMsg id)] ∧
      ∀ rid, Eff.dbRemove rid ∉ deleteRestaurant db id) ∧
    (∀ r, findById db id = some r →
      deleteRestaurant db id =
        [Eff.dbFindById id, Eff.dbRemove r.id,
         Eff.respond 200 (Body.restaurantPlain r)]) := by
  constructor
  · intro h
    refine ⟨by simp [deleteRestaurant, h], ?_⟩
    intro rid
    simp [deleteRestaurant, h]
  · intro r h
    simp [deleteRestaurant, h]

/-- Witness for C9: a missing id and a resolving id. -/
theorem deleteC9_witness :
    deleteRestaurant emptyDb "nope" =
      [Eff.dbFindById "nope", Eff.nextErr 404 (notFoundMsg "nope")] ∧
    deleteRestaurant sampleDb "r1" =
      [Eff.dbFindById "r1", Eff.dbRemove sampleRest.id,
       Eff.respond 200 (Body.restaurantPlain sampleRest)] :=
  ⟨((deleteC9 emptyDb "nope").1 rfl).1,
   (deleteC9 sampleDb "r1").2 sampleRest rfl⟩

/-- C2 fails on the code: the route table binds no stats path, so a GET of
`/stats-by-suburb` or `/stats-by-cuisine` is dispatched by the `/:id` route
to the get-one handler, and no registration at all carries a stats
handler — contradicting the controller's own `@route` documentation. -/
theorem routesC2_bug :
    matchRoute Method.GET "/stats-by-suburb" = some HandlerId.getRestaurant ∧
    matchRoute Method.GET "/stats-by-cuisine" = some HandlerId.getRestaurant ∧
    routes.all (fun r => r.handler ≠ HandlerId.getStatsBySuburb &&
      r.handler ≠ HandlerId.getStatsByCuisine) = true := by
  decide

/-- Both distance multipliers are nonnegative. -/
lemma distanceMultiplier_nonneg (unit : String) : 0 ≤ distanceMultiplier unit := by
  unfold distanceMultiplier
  split <;> norm_num

/-- Scaling by a nonnegative multiplier keeps the engine order of the
geoNear rows. -/
lemma distancesPipeline_pairwise {raw : List (Restaurant × ℚ)} {m : ℚ}
    (hm : 0 ≤ m) (hs : raw.Pairwise (fun x y => x.2 ≤ y.2)) :
    (distancesPipeline raw m).Pairwise (fun a b => a.distance ≤ b.distance) := by
  unfold distancesPipeline
  rw [List.pairwise_map]
  exact hs.imp (fun h => mul_le_mul_of_nonneg_right h hm)

/-- C5: on a valid distances request the handler runs the `$geoNear`
aggregation with multiplier 0.001 for `km` and 0.000621371 otherwise
applied to the engine-returned meter distances, projects each row to name
and computed distance, and answers 200 with the rows still ordered nearest
first (given the geoNear engine contract that its raw rows are ordered). -/
theorem distancesC5 (engine : List JsNum → List (Restaurant × ℚ))
    (toNum : String → JsNum) (req : DistancesReq)
    (hlat : isFalsy (parseLatLng req.latlng).lat = false)
    (hlng : isFalsy (parseLatLng req.latlng).lng = false)
    (hunit : req.unit = "km" ∨ req.unit = "mi")
    (hsorted : (engine (nearCoords toNum req.latlng)).Pairwise (fun x y => x.2 ≤ y.2)) :
    getDistances engine toNum req =
      [Eff.dbGeoNear (nearCoords toNum req.latlng) "distance" (distanceMultiplier req.unit),
       Eff.respond 200 (Body.distances
         (distancesPipeline (engine (nearCoords toNum req.latlng))
           (distanceMultiplier req.unit)))] ∧
    (req.unit = "km" → distanceMultiplier req.unit = 0.001) ∧
    (req.unit ≠ "km" → distanceMultiplier req.unit = 0.000621371) ∧
    (distancesPipeline (engine (nearCoords toNum req.latlng))
      (distanceMultiplier req.unit)).Pairwise (fun a b => a.distance ≤ b.distance) := by
  refine ⟨?_, fun h => by simp [distanceMultiplier, h],
    fun h => by simp [distanceMultiplier, h],
    distancesPipeline_pairwise (distanceMultiplier_nonneg req.unit) hsorted⟩
  have herr : geoErrors (parseLatLng req.latlng) req.unit = [] := by
    unfold geoErrors
    rcases hunit with h | h <;> simp [hlat, hlng, h]
  simp [getDistances, herr]

/-- Witness for C5 at a concrete valid request over an empty engine. -/
theorem distancesC5_witness :
    getDistances (fun _ => []) (fun _ => none) ⟨"1,2", "km"⟩ =
      [Eff.dbGeoNear (nearCoords (fun _ => none) "1,2") "distance"
        (distanceMultiplier "km"),
       Eff.respond 200 (Body.distances
         (distancesPipeline [] (distanceMultiplier "km")))] ∧
    distanceMultiplier "km" = 0.001 :=
  ⟨((distancesC5 (fun _ => []) (fun _ => none) ⟨"1,2", "km"⟩
      (by decide) (by decide) (Or.inl rfl) (by simp))).1,
   ((distancesC5 (fun _ => []) (fun _ => none) ⟨"1,2", "km"⟩
      (by decide) (by decide) (Or.inl rfl) (by simp))).2.1 rfl⟩

/-- The actual unit scaling of the distances pipeline: the miles value
times 1.609344 reproduces the kilometres value up to a relative error of
one millionth (exactly, `0.000621371 * 1.609344 = 0.000999999690624`). -/
lemma kmMiScaling (d : ℚ) :
    |d * 0.000621371 * kmPerMi - d * 0.001| ≤ 1 / 1000000 * |d * 0.001| := by
  have hconst : (0.000621371 : ℚ) * kmPerMi - 0.001 = -(309376 / 1000000000000000) := by
    unfold kmPerMi
    norm_num
  have hfactor : d * 0.000621371 * kmPerMi - d * 0.001 =
      -(309376 / 1000000000000000) * d := by
    linear_combination d * hconst
  rw [hfactor, abs_mul, abs_mul, abs_neg,
    abs_of_pos (show (0 : ℚ) < 309376 / 1000000000000000 by norm_num),
    abs_of_pos (show (0 : ℚ) < 0.001 by norm_num)]
  nlinarith [abs_nonneg d]

/-- C3 as stated is false on the code: at a point 1000 meters away the km
pipeline yields 1 and the mi pipeline yields 0.621371, and
`1 * 1.609344` is nowhere near `0.621371` (not even within 1 percent);
the factor relates the values in the opposite direction. -/
theorem distancesC3_counterexample :
    distancesPipeline (cexEngine (nearCoords (fun _ => some 0) "-33.873,151.207"))
        (distanceMultiplier "km") = [{ name := "Alpha", distance := 1 }] ∧
    distancesPipeline (cexEngine (nearCoords (fun _ => some 0) "-33.873,151.207"))
        (distanceMultiplier "mi") = [{ name := "Alpha", distance := 0.621371 }] ∧
    Eff.respond 200 (Body.distances [{ name := "Alpha", distance := 1 }]) ∈
      getDistances cexEngine (fun _ => some 0) ⟨"-33.873,151.207", "km"⟩ ∧
    Eff.respond 200 (Body.distances [{ name := "Alpha", distance := 0.621371 }]) ∈
      getDistances cexEngine (fun _ => some 0) ⟨"-33.873,151.207", "mi"⟩ ∧
    ¬ approxRel (1 / 100) ((1 : ℚ) * kmPerMi) 0.621371 := by
  have hkm : distancesPipeline (cexEngine (nearCoords (fun _ => some 0) "-33.873,151.207"))
      (distanceMultiplier "km") = [{ name := "Alpha", distance := 1 }] := by
    simp [distancesPipeline, cexEngine, sampleRest, distanceMultiplier]
    norm_num
  have hmi : distancesPipeline (cexEngine (nearCoords (fun _ => some 0) "-33.873,151.207"))
      (distanceMultiplier "mi") = [{ name := "Alpha", distance := 0.621371 }] := by
    simp [distancesPipeline, cexEngine, sampleRest, distanceMultiplier]
    norm_num
  refine ⟨hkm, hmi, ?_, ?_, ?_⟩
  · show Eff.respond 200 (Body.distances [{ name := "Alpha", distance := 1 }]) ∈
      geoErrors (parseLatLng "-33.873,151.207") "km" ++
        [Eff.dbGeoNear (nearCoords (fun _ => some 0) "-33.873,151.207") "distance"
          (distanceMultiplier "km"),
         Eff.respond 200 (Body.distances
          (distancesPipeline (cexEngine (nearCoords (fun _ => some 0) "-33.873,151.207"))
            (distanceMultiplier "km")))]
    exact List.mem_append_right _ (by simp [hkm])
  · show Eff.respond 200 (Body.distances [{ name := "Alpha", distance := 0.621371 }]) ∈
      geoErrors (parseLatLng "-33.873,151.207") "mi" ++
        [Eff.dbGeoNear (nearCoords (fun _ => some 0) "-33.873,151.207") "distance"
          (distanceMultiplier "mi"),
         Eff.respond 200 (Body.distances
          (distancesPipeline (cexEngine (nearCoords (fun _ => some 0) "-33.873,151.207"))
            (distanceMultiplier "mi")))]
    exact List.mem_append_right _ (by simp [hmi])
  · unfold approxRel kmPerMi
    rw [abs_of_pos (by norm_num), abs_of_pos (by norm_num)]
    norm_num

/-- C3 amended: for the same query point and engine, each mi-distance
times 1.609344 approximates the corresponding km-distance within a
relative tolerance of one millionth (the direction opposite to the claim),
and these are exactly the result sets of the two handler runs. -/
theorem distancesC3_amended (engine : List JsNum → List (Restaurant × ℚ))
    (toNum : String → JsNum) (latlng : String) :
    List.Forall₂
      (fun ekm emi =>
        |emi.distance * kmPerMi - ekm.distance| ≤ 1 / 1000000 * |ekm.distance|)
      (distancesPipeline (engine (nearCoords toNum latlng)) (distanceMultiplier "km"))
      (distancesPipeline (engine (nearCoords toNum latlng)) (distanceMultiplier "mi")) ∧
    Eff.respond 200 (Body.distances
        (distancesPipeline (engine (nearCoords toNum latlng)) (distanceMultiplier "km"))) ∈
      getDistances engine toNum ⟨latlng, "km"⟩ ∧
    Eff.respond 200 (Body.distances
        (distancesPipeline (engine (nearCoords toNum latlng)) (distanceMultiplier "mi"))) ∈
      getDistances engine toNum ⟨latlng, "mi"⟩ := by
  refine ⟨?_, by simp [getDistances], by simp [getDistances]⟩
  have hm1 : distanceMultiplier "km" = 0.001 := rfl
  have hm2 : distanceMultiplier "mi" = 0.000621371 := rfl
  rw [hm1, hm2]
  induction engine (nearCoords toNum latlng) with
  | nil => exact List.Forall₂.nil
  | cons hd tl ih =>
    simp only [distancesPipeline, List.map_cons] at ih ⊢
    exact List.Forall₂.cons (kmMiScaling hd.2) ih

/-- Every group produced by the `$group` model stems from one key value. -/
lemma mem_groupBy {α : Type} {key : α → String} {qty avg : α → ℚ} {docs : List α}
    {g : StatsGroup} (hg : g ∈ groupBy key qty avg docs) :
    ∃ k, g = mkStatsGroup key qty avg docs k := by
  rcases List.mem_map.mp hg with ⟨k, _, rfl⟩
  exact ⟨k, rfl⟩

/-- Each group of the `$group` model carries the member count, the summed
quantities and the averaged ratings of exactly the documents whose key is
the group's `_id`. -/
lemma groupBy_fields {α : Type} (key : α → String) (qty avg : α → ℚ) (docs : List α) :
    (groupBy key qty avg docs).Forall (fun g =>
      g.numRestaurants = (docs.filter (fun d => key d = g.groupId)).length ∧
      g.numRatings = ((docs.filter (fun d => key d = g.groupId)).map qty).sum ∧
      g.avgRating = ((docs.filter (fun d => key d = g.groupId)).map avg).sum /
        ((docs.filter (fun d => key d = g.groupId)).length : ℚ)) := by
  rw [List.forall_iff_forall_mem]
  intro g hg
  rcases mem_groupBy hg with ⟨k, rfl⟩
  exact ⟨rfl, rfl, rfl⟩

/-- Every document key is the `_id` of some group of the `$group` model. -/
lemma groupBy_covers {α : Type} (key : α → String) (qty avg : α → ℚ) (docs : List α) :
    docs.Forall (fun d => key d ∈ (groupBy key qty avg docs).map StatsGroup.groupId) := by
  rw [List.forall_iff_forall_mem]
  intro d hd
  have hk : key d ∈ (docs.map key).dedup :=
    List.mem_dedup.mpr (List.mem_map_of_mem key hd)
  exact List.mem_map.mpr
    ⟨mkStatsGroup key qty avg docs (key d), List.mem_map_of_mem _ hk, rfl⟩

/-- The sort stage is a permutation: membership is unchanged. -/
lemma mem_sortStats {gs : List StatsGroup} {g : StatsGroup} :
    g ∈ sortStats gs ↔ g ∈ gs :=
  List.mem_mergeSort

/-- The sort stage preserves pointwise facts about the groups. -/
lemma sortStats_forall {gs : List StatsGroup} {p : StatsGroup → Prop}
    (h : gs.Forall p) : (sortStats gs).Forall p := by
  rw [List.forall_iff_forall_mem] at h ⊢
  exact fun g hg => h g (mem_sortStats.mp hg)

/-- The descending three-level comparison is transitive. -/
lemma descStats_trans (a b c : StatsGroup)
    (hab : statLE a b = true) (hbc : statLE b c = true) : statLE a c = true := by
  simp only [statLE, decide_eq_true_eq, descStats] at hab hbc ⊢
  rcases hab with h1 | ⟨e1, hab⟩
  · rcases hbc with h2 | ⟨e2, hbc⟩
    · exact Or.inl (lt_trans h2 h1)
    · exact Or.inl (lt_of_eq_of_lt e2 h1)
  · rcases hbc with h2 | ⟨e2, hbc⟩
    · exact Or.inl (lt_of_lt_of_eq h2 e1)
    · refine Or.inr ⟨e2.trans e1, ?_⟩
      rcases hab with h1 | ⟨f1, hab⟩
      · rcases hbc with h2 | ⟨f2, hbc⟩
        · exact Or.inl (lt_trans h2 h1)
        · exact Or.inl (lt_of_eq_of_lt f2 h1)
      · rcases hbc with h2 | ⟨f2, hbc⟩
        · exact Or.inl (lt_of_lt_of_eq h2 f1)
        · exact Or.inr ⟨f2.trans f1, le_trans hbc hab⟩

/-- The descending three-level comparison is total. -/
lemma descStats_total (a b : StatsGroup) : (statLE a b || statLE b a) = true := by
  simp only [statLE, Bool.or_eq_true, decide_eq_true_eq, descStats]
  rcases lt_trichotomy a.numRestaurants b.numRestaurants with h | h | h
  · exact Or.inr (Or.inl h)
  · rcases lt_trichotomy a.numRatings b.numRatings with h2 | h2 | h2
    · exact Or.inr (Or.inr ⟨h, Or.inl h2⟩)
    · rcases le_total a.avgRating b.avgRating with h3 | h3
      · exact Or.inr (Or.inr ⟨h, Or.inr ⟨h2, h3⟩⟩)
      · exact Or.inl (Or.inr ⟨h.symm, Or.inr ⟨h2.symm, h3⟩⟩)
    · exact Or.inl (Or.inr ⟨h.symm, Or.inl h2⟩)
  · exact Or.inl (Or.inl h)

/-- The sort stage outputs the groups in the descending order of the
`$sort` key. -/
lemma sortStats_sorted (gs : List StatsGroup) :
    (sortStats gs).Pairwise descStats := by
  have h := List.sorted_mergeSort descStats_trans descStats_total gs
  exact h.imp (fun hab => of_decide_eq_true hab)

/-- Document keys survive the sort stage as group ids. -/
lemma sorted_groupBy_covers {α : Type} (key : α → String) (qty avg : α → ℚ)
    (docs : List α) :
    docs.Forall (fun d =>
      key d ∈ (sortStats (groupBy key qty avg docs)).map StatsGroup.groupId) := by
  rw [List.forall_iff_forall_mem]
  intro d hd
  have h := (List.forall_iff_forall_mem.mp (groupBy_covers key qty avg docs)) d hd
  rcases List.mem_map.mp h with ⟨g, hg, hgid⟩
  exact List.mem_map.mpr ⟨g, mem_sortStats.mpr hg, hgid⟩

/-- C6: the suburb-stats handler groups documents by uppercased suburb and
the cuisine-stats handler unwinds the cuisine tags and groups by uppercased
tag; each group carries the member count, the summed `ratingsQuantity` and
the averaged `ratingsAverage` of exactly its key's documents, every
document is represented, and the emitted groups are ordered descending by
restaurant count, then rating count, then average rating. -/
theorem statsC6 (docs : List Restaurant) :
    getStatsBySuburb docs = [Eff.respond 200 (Body.stats (suburbStats docs))] ∧
    getStatsByCuisine docs = [Eff.respond 200 (Body.stats (cuisineStats docs))] ∧
    (suburbStats docs).Forall (fun g =>
      g.numRestaurants =
        (docs.filter (fun r => jsToUpper r.suburb = g.groupId)).length ∧
      g.numRatings =
        ((docs.filter (fun r => jsToUpper r.suburb = g.groupId)).map
          Restaurant.ratingsQuantity).sum ∧
      g.avgRating =
        ((docs.filter (fun r => jsToUpper r.suburb = g.groupId)).map
          Restaurant.ratingsAverage).sum /
        ((docs.filter (fun r => jsToUpper r.suburb = g.groupId)).length : ℚ)) ∧
    docs.Forall (fun r =>
      jsToUpper r.suburb ∈ (suburbStats docs).map StatsGroup.groupId) ∧
    (suburbStats docs).Pairwise descStats ∧
    (cuisineStats docs).Forall (fun g =>
      g.numRestaurants =
        ((unwindCuisine docs).filter (fun rc => jsToUpper rc.2 = g.groupId)).length ∧
      g.numRatings =
        (((unwindCuisine docs).filter (fun rc => jsToUpper rc.2 = g.groupId)).map
          (fun rc => rc.1.ratingsQuantity)).sum ∧
      g.avgRating =
        (((unwindCuisine docs).filter (fun rc => jsToUpper rc.2 = g.groupId)).map
          (fun rc => rc.1.ratingsAverage)).sum /
        (((unwindCuisine docs).filter (fun rc => jsToUpper rc.2 = g.groupId)).length : ℚ)) ∧
    (unwindCuisine docs).Forall (fun rc =>
      jsToUpper rc.2 ∈ (cuisineStats docs).map StatsGroup.groupId) ∧
    (cuisineStats docs).Pairwise descStats := by
  refine ⟨rfl, rfl, ?_, ?_, sortStats_sorted _, ?_, ?_, sortStats_sorted _⟩
  · exact sortStats_forall (groupBy_fields _ _ _ docs)
  · exact sorted_groupBy_covers _ _ _ docs
  · exact sortStats_forall (groupBy_fields _ _ _ (unwindCuisine docs))
  · exact sorted_groupBy_covers _ _ _ (unwindCuisine docs)
